import Mathlib

/-!
Shallow embedding of the reservation core of the SitemaReservasBack backend
(FastAPI/app/services/reservation_service.py together with the lookups it
calls in user_service.py and workspace_service.py, and the record models in
database.py and models/).

Modelling conventions:
* `datetime` values are integers (minutes since the Unix epoch); `timedelta`
  values are integers in the same unit.
* Python floats (prices, discounts) are modelled as rationals.
* Nullable Python values are modelled with `Option`: a function whose body
  can only `return` a non-`None` value never produces `none`.
* An exception escaping a service call is an `Except.error` carrying a
  `PyException`: a deliberately raised FastAPI `HTTPException` with its
  status code and detail string, or an uncaught Python runtime error
  (`TypeError`, `AttributeError`).  Each service call returns the possibly
  updated store alongside its result, and the store is returned unchanged on
  every raising path that precedes a persistence call.
* The Peewee query `Model.get(Model.id == x)` is `List.find?` over the
  store's rows in iteration order.
* `WorkspaceService.get_workspace` is an instance method
  (`def get_workspace(self, workspace_id)`, workspace_service.py line 47,
  no `@staticmethod`), but reservation_service.py calls it on the class with
  a single argument (lines 115 and 244); in Python 3 that binds the argument
  to `self` and leaves `workspace_id` unfilled, raising `TypeError` before
  the method body runs.  The embedding models that call as always raising,
  so the code below it in both creation functions is dead, exactly as in
  the source; the dead guards and persistence are still transcribed so the
  functions mirror the source text.
-/

/-- Role enumeration from models/person.py (`RoleEnum`). -/
inductive RoleEnum
  | ADMIN
  | USER
deriving Repr, DecidableEq

/-- Reservation status enumeration from models/reservation.py. -/
inductive ReservationStatusEnum
  | ACTIVE
  | CANCELLED
deriving Repr, DecidableEq

/-- Promotion status enumeration from models/promotion.py. -/
inductive PromotionStatusEnum
  | AVAILABLE
  | FINISHED
deriving Repr, DecidableEq

/-- A `person` row (database.py `PersonModel`). -/
structure PersonModel where
  id : Int
  name : String
  email : String
  password : String
  role : RoleEnum
deriving Repr, DecidableEq

/-- A `workspace` row (database.py `WorkspaceModel`). -/
structure WorkspaceModel where
  id : Int
  type : String
  capacity : Int
  hourlyRate : ℚ
  created_by : Int
deriving Repr, DecidableEq

/-- A `reservation` row (database.py `ReservationModel`).  `cancelledAt` is
the attribute set by `delete_reservation` (declared on the Pydantic
`Reservation` model); absent until a cancellation writes it. -/
structure ReservationModel where
  id : Int
  reservedBy : Int
  workspace : Int
  startTime : Int
  endTime : Int
  status : ReservationStatusEnum
  price : ℚ
  cancelledAt : Option Int
deriving Repr, DecidableEq

/-- A `promotion` row (database.py `PromotionModel`).  The fields
`discountType`, `minDuration` and `applicableDays` are read by the promotion
block of `create_reservation_with_promotion` but declared in no model under
the repository; they are modelled from the spec: `discountType ∈ {percent,
fixed}` as the string the code compares against, `minDuration` a duration,
`applicableDays` a set of weekdays stored as the list of their Python
`weekday()` values. -/
structure PromotionModel where
  id : Int
  description : String
  discount : ℚ
  startTime : Int
  endTime : Int
  status : PromotionStatusEnum
  discountType : String
  minDuration : Int
  applicableDays : List Int
deriving Repr, DecidableEq

/-- The request body for reservation creation (models/reservation.py,
Pydantic `Reservation`). -/
structure Reservation where
  reservedBy : Int
  workspace : Int
  startTime : Int
  endTime : Int
  cancelledAt : Option Int
  status : ReservationStatusEnum
  price : ℚ
deriving Repr, DecidableEq

/-- A raised FastAPI `HTTPException`, identified by status code and detail. -/
structure HTTPException where
  status_code : Nat
  detail : String
deriving Repr, DecidableEq

/-- An exception escaping a service call: a deliberately raised
`HTTPException`, or an uncaught Python runtime error.  The creation
functions catch neither `TypeError` nor `AttributeError` (only
`IntegrityError`, and `DoesNotExist` inside the lookups), so these
propagate to the caller. -/
inductive PyException
  | httpException (e : HTTPException)
  | typeError (message : String)
  | attributeError (message : String)
deriving Repr, DecidableEq

/-- The relational store: one list of rows per table, in iteration order,
plus the next value of the reservation table's `AutoField` primary key. -/
structure DB where
  persons : List PersonModel
  workspaces : List WorkspaceModel
  reservations : List ReservationModel
  promotions : List PromotionModel
  nextReservationId : Int
deriving Repr, DecidableEq

namespace UserService

/-- user_service.py `UserService.get_user` (a genuine `@staticmethod`):
`PersonModel.get(id == user_id)` returns the row, and a missing row raises
`DoesNotExist`, re-raised as `HTTPException(404, "User not found")`.  The
`Option` in the result type records Python nullability: the body only ever
returns the found (non-None) user. -/
def get_user (db : DB) (user_id : Int) : Except HTTPException (Option PersonModel) :=
  match db.persons.find? (fun p => p.id == user_id) with
  | some user => .ok (some user)
  | none => .error ⟨404, "User not found"⟩

end UserService

/-- The value the workspace lookup's body would hand back: either the
workspace row together with its schedules, or the literal string
`"Workspace not found"`.  Neither constructor is Python `None`. -/
inductive WorkspaceValue
  | record (w : WorkspaceModel)
  | message (s : String)
deriving Repr, DecidableEq

namespace WorkspaceService

/-- The body of workspace_service.py `WorkspaceService.get_workspace`
(an instance method, called correctly on an instance by the route layer):
returns the found workspace's data (with its schedules) or, on
`DoesNotExist`, the string `"Workspace not found"` — never `None`.  The
reservation service never reaches this body: see
`get_workspace_unbound_call`. -/
def get_workspace (db : DB) (workspace_id : Int) : Option WorkspaceValue :=
  match db.workspaces.find? (fun w => w.id == workspace_id) with
  | some w => some (.record w)
  | none => some (.message "Workspace not found")

/-- reservation_service.py lines 115 and 244:
`WorkspaceService.get_workspace(reservation.workspace)`.  `get_workspace`
is an instance method (`self, workspace_id`) with no `@staticmethod`
(workspace_service.py line 47), so this one-argument call on the class
binds the workspace id to `self` and leaves `workspace_id` missing: Python
raises `TypeError` unconditionally, before any lookup happens. -/
def get_workspace_unbound_call (_workspace : Int) :
    Except PyException (Option WorkspaceValue) :=
  .error (.typeError
    "get_workspace missing 1 required positional argument: workspace_id")

end WorkspaceService

/-- The `promotion_details` dictionary the promotion block would return. -/
structure PromotionDetails where
  description : String
  discount : ℚ
  discount_type : String
deriving Repr, DecidableEq

namespace ReservationService

/-- reservation_service.py `ReservationService.create_reservation` (lines
114-142).  The user lookup runs first and may raise 404 "User not found";
the workspace lookup call at line 115 then raises `TypeError` on every run
(see `get_workspace_unbound_call`), which no handler catches (only
`IntegrityError` is).  Everything below line 115 — the `is None` guards,
role, time-range, status and price checks and the persistence call — is
dead code, transcribed here under the never-taken `.ok` branch so the
definition mirrors the source text. -/
def create_reservation (db : DB) (reservation : Reservation) :
    Except PyException ReservationModel × DB :=
  match UserService.get_user db reservation.reservedBy with
  | .error e => (.error (.httpException e), db)
  | .ok user =>
    match WorkspaceService.get_workspace_unbound_call reservation.workspace with
    | .error e => (.error e, db)
    | .ok workspace =>
      match user with
      | none => (.error (.httpException ⟨400, "Only need valid user "⟩), db)
      | some user =>
        match workspace with
        | none => (.error (.httpException ⟨400, "Only need valid workspace"⟩), db)
        | some _workspace =>
          if user.role ≠ RoleEnum.USER then
            (.error (.httpException ⟨400, "Only users can reserve workspaces"⟩), db)
          else if reservation.startTime > reservation.endTime then
            (.error (.httpException ⟨400, "Start time must be before end time"⟩), db)
          else if reservation.status ≠ ReservationStatusEnum.ACTIVE then
            (.error (.httpException ⟨400, "Reservation status must be active"⟩), db)
          else if reservation.price < 0 then
            (.error (.httpException ⟨400, "Reservation price must be positive"⟩), db)
          else
            let created : ReservationModel :=
              { id := db.nextReservationId
                reservedBy := user.id
                workspace := reservation.workspace
                startTime := reservation.startTime
                endTime := reservation.endTime
                status := ReservationStatusEnum.ACTIVE
                price := reservation.price
                cancelledAt := none }
            (.ok created,
             { db with
                reservations := db.reservations ++ [created]
                nextReservationId := db.nextReservationId + 1 })

/-- Transcription of lines 271-276 of reservation_service.py: the price
after subtracting the promotion's discount — `price * (discount / 100)` for
discountType `percent`, the flat `discount` otherwise — then set to 0 when
the result went negative.  The block containing these lines is unreachable
(see `create_reservation_with_promotion`); this definition documents the
computation the dead text spells out and is used only to exhibit what the
block would compute. -/
def discountedPrice (reservation : Reservation) (promotion : PromotionModel) : ℚ :=
  if reservation.price -
      (if promotion.discountType == "percent" then
        reservation.price * (promotion.discount / 100)
      else promotion.discount) < 0 then
    0
  else
    reservation.price -
      (if promotion.discountType == "percent" then
        reservation.price * (promotion.discount / 100)
      else promotion.discount)

/-- The promotion block of `create_reservation_with_promotion` (lines
258-283) — itself dead code behind the `TypeError` at line 244.  Were it
reached with the flag set, the query `Promotion.select()` at line 261
targets the Pydantic `Promotion` class (models/promotion.py), which has no
`select` attribute, so it raises `AttributeError` rather than selecting a
promotion; with the flag unset the block is skipped and the submitted price
passes through with no details. -/
def promotionStep (_db : DB) (reservation : Reservation) (apply_promotion : Bool) :
    Except PyException (ℚ × Option PromotionDetails) :=
  if apply_promotion then
    .error (.attributeError "type object Promotion has no attribute select")
  else
    .ok (reservation.price, none)

/-- reservation_service.py `ReservationService.create_reservation_with_promotion`
(lines 228-299).  As in `create_reservation`: the user lookup may raise 404,
then the workspace lookup call at line 244 raises `TypeError` on every run.
The validations (lines 245-256, with this function's detail strings), the
promotion block and the persistence call are dead code, transcribed under
the never-taken `.ok` branch to mirror the source text. -/
def create_reservation_with_promotion (db : DB) (reservation : Reservation)
    (apply_promotion : Bool) :
    Except PyException (ReservationModel × Option PromotionDetails) × DB :=
  match UserService.get_user db reservation.reservedBy with
  | .error e => (.error (.httpException e), db)
  | .ok user =>
    match WorkspaceService.get_workspace_unbound_call reservation.workspace with
    | .error e => (.error e, db)
    | .ok workspace =>
      match user with
      | none => (.error (.httpException ⟨400, "Only need valid user"⟩), db)
      | some user =>
        match workspace with
        | none => (.error (.httpException ⟨400, "Only need valid workspace"⟩), db)
        | some _workspace =>
          if user.role ≠ RoleEnum.USER then
            (.error (.httpException ⟨400, "Only users can reserve workspaces"⟩), db)
          else if reservation.startTime > reservation.endTime then
            (.error (.httpException ⟨400, "Start time must be before end time"⟩), db)
          else if reservation.status ≠ ReservationStatusEnum.ACTIVE then
            (.error (.httpException ⟨400, "Reservation status must be active"⟩), db)
          else if reservation.price < 0 then
            (.error (.httpException ⟨400, "Reservation price must be positive"⟩), db)
          else
            match promotionStep db reservation apply_promotion with
            | .error e => (.error e, db)
            | .ok (finalPrice, promotion_details) =>
              let created : ReservationModel :=
                { id := db.nextReservationId
                  reservedBy := user.id
                  workspace := reservation.workspace
                  startTime := reservation.startTime
                  endTime := reservation.endTime
                  status := ReservationStatusEnum.ACTIVE
                  price := finalPrice
                  cancelledAt := none }
              (.ok (created, promotion_details),
               { db with
                  reservations := db.reservations ++ [created]
                  nextReservationId := db.nextReservationId + 1 })

/-- reservation_service.py `ReservationService.update_reservation` (lines
146-189).  The body parameter is shadowed by the loaded row on the first
line, so only the id matters; this function never calls the broken
workspace lookup — it follows foreign keys on the loaded row, and a
dangling foreign key raises `DoesNotExist`, caught by the same handler as a
missing reservation (404 "Reservation not found").  The final branch
re-saves the loaded row with status ACTIVE; it is dead code because the
preceding guard compares the workspace's capacity with itself. -/
def update_reservation (db : DB) (reservation_id : Int) :
    Except HTTPException ReservationModel × DB :=
  match db.reservations.find? (fun r => r.id == reservation_id) with
  | none => (.error ⟨404, "Reservation not found"⟩, db)
  | some reservation =>
    match db.persons.find? (fun p => p.id == reservation.reservedBy) with
    | none => (.error ⟨404, "Reservation not found"⟩, db)
    | some person =>
      if person.role ≠ RoleEnum.USER then
        (.error ⟨400, "Only users can reserve workspaces"⟩, db)
      else if reservation.startTime > reservation.endTime then
        (.error ⟨400, "Start time must be before end time"⟩, db)
      else if reservation.status ≠ ReservationStatusEnum.ACTIVE then
        (.error ⟨400, "Reservation status must be active"⟩, db)
      else if reservation.price < 0 then
        (.error ⟨400, "Reservation price must be positive"⟩, db)
      else
        match db.workspaces.find? (fun w => w.id == reservation.workspace) with
        | none => (.error ⟨404, "Reservation not found"⟩, db)
        | some workspace =>
          if workspace.capacity < 1 then
            (.error ⟨400, "Workspace capacity must be greater than 0"⟩, db)
          else if workspace.capacity ≤ workspace.capacity then
            (.error ⟨400, "Workspace capacity must be greater than reservation capacity"⟩, db)
          else
            let updated := { reservation with status := ReservationStatusEnum.ACTIVE }
            (.ok updated,
             { db with
                reservations := db.reservations.map
                  (fun r => if r.id == reservation_id then updated else r) })

/-- reservation_service.py `ReservationService.delete_reservation` (lines
191-212): load the row (404 "Reservation not found" if absent), set status
CANCELLED and `cancelledAt = now`, save, and return the confirmation
message.  `now` is `datetime.now()` passed explicitly. -/
def delete_reservation (db : DB) (reservation_id : Int) (now : Int) :
    Except HTTPException String × DB :=
  match db.reservations.find? (fun r => r.id == reservation_id) with
  | none => (.error ⟨404, "Reservation not found"⟩, db)
  | some reservation =>
    let cancelled :=
      { reservation with
          status := ReservationStatusEnum.CANCELLED
          cancelledAt := some now }
    (.ok "Reservation deleted successfully",
     { db with
        reservations := db.reservations.map
          (fun r => if r.id == reservation_id then cancelled else r) })

end ReservationService

/-! ## Concrete sample data used by the closed theorems and witnesses -/

/-- A sample user with role USER. -/
def alice : PersonModel :=
  { id := 1, name := "Alice", email := "alice@mail.com", password := "h1",
    role := RoleEnum.USER }

/-- A sample user with role ADMIN. -/
def bob : PersonModel :=
  { id := 2, name := "Bob", email := "bob@mail.com", password := "h2",
    role := RoleEnum.ADMIN }

/-- A sample workspace. -/
def desk1 : WorkspaceModel :=
  { id := 1, type := "Desk", capacity := 4, hourlyRate := 10, created_by := 2 }

/-- A store with one USER, one ADMIN and one workspace, no promotions. -/
def dbBase : DB :=
  { persons := [alice, bob], workspaces := [desk1], reservations := [],
    promotions := [], nextReservationId := 1 }

/-- A store with no rows at all. -/
def dbEmpty : DB :=
  { persons := [], workspaces := [], reservations := [], promotions := [],
    nextReservationId := 1 }

/-- A creation request whose start and end times are equal (both at the
epoch), otherwise valid: existing USER, existing workspace, ACTIVE,
price 10. -/
def reqEqualTimes : Reservation :=
  { reservedBy := 1, workspace := 1, startTime := 0, endTime := 0,
    cancelledAt := none, status := ReservationStatusEnum.ACTIVE, price := 10 }

/-- A creation request with a negative price by the existing USER Alice. -/
def reqBadPrice : Reservation :=
  { reservedBy := 1, workspace := 1, startTime := 0, endTime := 60,
    cancelledAt := none, status := ReservationStatusEnum.ACTIVE, price := -5 }

/-- A request by the existing ADMIN Bob naming the non-existent workspace
99. -/
def reqByAdmin : Reservation :=
  { reservedBy := 2, workspace := 99, startTime := 0, endTime := 60,
    cancelledAt := none, status := ReservationStatusEnum.ACTIVE, price := 5 }

/-- A valid request by Alice at price 100, two hours long. -/
def reqPromo100 : Reservation :=
  { reservedBy := 1, workspace := 1, startTime := 0, endTime := 120,
    cancelledAt := none, status := ReservationStatusEnum.ACTIVE, price := 100 }

/-- An AVAILABLE percent promotion covering every window, minimum duration
one hour, applicable on Mondays only (Python weekday 0). -/
def promoWrongDay : PromotionModel :=
  { id := 1, description := "Monday promo", discount := 20, startTime := -100000,
    endTime := 100000, status := PromotionStatusEnum.AVAILABLE,
    discountType := "percent", minDuration := 60, applicableDays := [0] }

/-- A store whose only promotion is `promoWrongDay`. -/
def dbPromoWrongDay : DB :=
  { persons := [alice, bob], workspaces := [desk1], reservations := [],
    promotions := [promoWrongDay], nextReservationId := 1 }

/-- An AVAILABLE 20-percent promotion covering every window, minimum
duration one hour, applicable on Thursdays (Python weekday 3). -/
def promoPercent : PromotionModel :=
  { id := 2, description := "Thursday percent promo", discount := 20,
    startTime := -100000, endTime := 100000,
    status := PromotionStatusEnum.AVAILABLE, discountType := "percent",
    minDuration := 60, applicableDays := [3] }

/-- A store whose only promotion is `promoPercent`. -/
def dbPromoPercent : DB :=
  { persons := [alice, bob], workspaces := [desk1], reservations := [],
    promotions := [promoPercent], nextReservationId := 1 }

/-- A second AVAILABLE promotion, behind `promoPercent` in store order,
with a larger discount. -/
def promoSecond : PromotionModel :=
  { id := 3, description := "Second promo", discount := 50, startTime := -100000,
    endTime := 100000, status := PromotionStatusEnum.AVAILABLE,
    discountType := "percent", minDuration := 0, applicableDays := [3] }

/-- A FINISHED promotion placed first in store order. -/
def promoFinished : PromotionModel :=
  { id := 4, description := "Finished promo", discount := 90, startTime := -100000,
    endTime := 100000, status := PromotionStatusEnum.FINISHED,
    discountType := "percent", minDuration := 0, applicableDays := [3] }

/-- A store with a FINISHED promotion first, then two AVAILABLE
promotions. -/
def dbTwoPromos : DB :=
  { persons := [alice, bob], workspaces := [desk1], reservations := [],
    promotions := [promoFinished, promoPercent, promoSecond],
    nextReservationId := 1 }

/-- A persisted ACTIVE reservation with id 1. -/
def recActive : ReservationModel :=
  { id := 1, reservedBy := 1, workspace := 1, startTime := 0, endTime := 120,
    status := ReservationStatusEnum.ACTIVE, price := 10, cancelledAt := none }

/-- A store holding `recActive`. -/
def dbWithReservation : DB :=
  { persons := [alice, bob], workspaces := [desk1], reservations := [recActive],
    promotions := [], nextReservationId := 2 }

/-! ## Helper lemmas -/

/-- Updating, in a row list, exactly the rows a successful primary-key
lookup would hit: afterwards the lookup returns the replacement row. -/
theorem find?_map_update (l : List ReservationModel) (reservation_id : Int)
    (w : ReservationModel) (hw : (w.id == reservation_id) = true) :
    ∀ v, l.find? (fun r => r.id == reservation_id) = some v →
      (l.map (fun r => if r.id == reservation_id then w else r)).find?
        (fun r => r.id == reservation_id) = some w := by
  induction l with
  | nil => intro v h; simp at h
  | cons a t ih =>
    intro v h
    by_cases ha : (a.id == reservation_id) = true
    · rw [List.map_cons, if_pos ha]
      exact List.find?_cons_of_pos _ hw
    · have ha2 : (a.id == reservation_id) = false := by simpa using ha
      rw [List.find?_cons_of_neg t (by simp [ha2])] at h
      rw [List.map_cons, if_neg ha, List.find?_cons_of_neg _ (by simp [ha2])]
      exact ih v h

/-- A found reservation is cancelled: the call returns the confirmation
message and the stored row now has status CANCELLED and `cancelledAt`
set to the passed timestamp. -/
theorem delete_reservation_found (db : DB) (reservation_id : Int) (now : Int)
    (reservation : ReservationModel)
    (h : db.reservations.find? (fun r => r.id == reservation_id) = some reservation) :
    (ReservationService.delete_reservation db reservation_id now).1 =
        Except.ok "Reservation deleted successfully" ∧
      (ReservationService.delete_reservation db reservation_id now).2.reservations.find?
          (fun r => r.id == reservation_id) =
        some { reservation with
                status := ReservationStatusEnum.CANCELLED
                cancelledAt := some now } := by
  unfold ReservationService.delete_reservation
  rw [h]
  dsimp only
  refine ⟨rfl, ?_⟩
  have hid : (reservation.id == reservation_id) = true := by
    have hmem := List.find?_some h
    simpa using hmem
  exact find?_map_update db.reservations reservation_id _ hid reservation h

/-! ## Claim theorems -/

/-- C1: a request with `startTime = endTime` is neither rejected with the
InvalidTimeRange error nor accepted: the run dies with `TypeError` at the
unbound workspace-lookup call (reservation_service.py line 115), before the
time-range guard, and the store is unchanged. -/
theorem create_reservation_equal_times_type_error :
    ReservationService.create_reservation dbBase reqEqualTimes =
      (Except.error (PyException.typeError
        "get_workspace missing 1 required positional argument: workspace_id"),
       dbBase) := by
  rfl

/-- C2: with the promotion flag set, a matching AVAILABLE promotion in the
store whose weekday condition fails and a valid USER request, the operation
does not raise PromotionConditionsNotMet: it dies with `TypeError` at the
unbound workspace-lookup call (line 244) before the promotion block, store
unchanged. -/
theorem weekday_case_dies_with_type_error :
    ReservationService.create_reservation_with_promotion dbPromoWrongDay
        reqPromo100 true =
      (Except.error (PyException.typeError
        "get_workspace missing 1 required positional argument: workspace_id"),
       dbPromoWrongDay) := by
  rfl

/-- C3: a reservation attempt by an existing ADMIN (here with a missing
workspace as well) does not fail with the InvalidUser error: the role check
at line 120 is unreachable, because the workspace-lookup call at line 115
raises `TypeError` on every run that passes the user lookup; the store is
unchanged. -/
theorem admin_reservation_dies_with_type_error :
    ReservationService.create_reservation dbBase reqByAdmin =
      (Except.error (PyException.typeError
        "get_workspace missing 1 required positional argument: workspace_id"),
       dbBase) := by
  rfl

/-- C4: no discounted price is ever computed or persisted — a valid USER
request with a matching 20-percent promotion and both conditions met dies
with `TypeError` at line 244 before the promotion block — although the dead
block's own formula (lines 271-276, transcribed as `discountedPrice`) would
indeed turn price 100 with a 20 percent discount into 80. -/
theorem promotion_discount_dead_code :
    ReservationService.create_reservation_with_promotion dbPromoPercent
        reqPromo100 true =
      (Except.error (PyException.typeError
        "get_workspace missing 1 required positional argument: workspace_id"),
       dbPromoPercent) ∧
    ReservationService.discountedPrice reqPromo100 promoPercent = 80 := by
  constructor
  · rfl
  · unfold ReservationService.discountedPrice
    norm_num [reqPromo100, promoPercent]

/-- C5: the guarantee "every successfully persisted reservation has status
ACTIVE and price ≥ 0" is vacuous: neither creation function ever succeeds —
every run fails with the 404 user lookup or the `TypeError` at the unbound
workspace-lookup call — and the store is never changed, for every store,
request and flag. -/
theorem creation_never_persists (db : DB) (reservation : Reservation)
    (apply_promotion : Bool) :
    ((ReservationService.create_reservation db reservation).1.isOk = false ∧
      (ReservationService.create_reservation db reservation).2 = db) ∧
    ((ReservationService.create_reservation_with_promotion db reservation
        apply_promotion).1.isOk = false ∧
      (ReservationService.create_reservation_with_promotion db reservation
        apply_promotion).2 = db) := by
  constructor
  · unfold ReservationService.create_reservation
    split
    · exact ⟨rfl, rfl⟩
    · exact ⟨rfl, rfl⟩
  · unfold ReservationService.create_reservation_with_promotion
    split
    · exact ⟨rfl, rfl⟩
    · exact ⟨rfl, rfl⟩

/-- C6: `delete_reservation` fails with 404 "Reservation not found" exactly
when no reservation has the given id; otherwise it reports success and the
stored row ends with status CANCELLED and a non-null `cancelledAt`, and a
second cancellation leaves status CANCELLED and `cancelledAt` non-null
(re-stamped to the second timestamp). -/
theorem cancel_spec (db : DB) (reservation_id : Int) (now now2 : Int) :
    (db.reservations.find? (fun r => r.id == reservation_id) = none →
      ReservationService.delete_reservation db reservation_id now =
        (Except.error ⟨404, "Reservation not found"⟩, db)) ∧
    (∀ reservation,
      db.reservations.find? (fun r => r.id == reservation_id) = some reservation →
        (ReservationService.delete_reservation db reservation_id now).1 =
            Except.ok "Reservation deleted successfully" ∧
          (ReservationService.delete_reservation db reservation_id
              now).2.reservations.find? (fun r => r.id == reservation_id) =
            some { reservation with
                    status := ReservationStatusEnum.CANCELLED
                    cancelledAt := some now } ∧
          (ReservationService.delete_reservation
              (ReservationService.delete_reservation db reservation_id now).2
              reservation_id now2).2.reservations.find?
              (fun r => r.id == reservation_id) =
            some { reservation with
                    status := ReservationStatusEnum.CANCELLED
                    cancelledAt := some now2 }) := by
  constructor
  · intro h
    unfold ReservationService.delete_reservation
    rw [h]
  · intro reservation h
    obtain ⟨h1, h2⟩ := delete_reservation_found db reservation_id now reservation h
    refine ⟨h1, h2, ?_⟩
    exact (delete_reservation_found _ reservation_id now2 _ h2).2

/-- C6 witness: cancelling id 1 on the empty store is a 404; on the store
holding `recActive` it succeeds, stores CANCELLED with `cancelledAt = 5`,
and a second cancellation at time 7 leaves CANCELLED with
`cancelledAt = 7`. -/
theorem cancel_spec_witness :
    ReservationService.delete_reservation dbEmpty 1 5 =
        (Except.error ⟨404, "Reservation not found"⟩, dbEmpty) ∧
      ((ReservationService.delete_reservation dbWithReservation 1 5).1 =
          Except.ok "Reservation deleted successfully" ∧
        (ReservationService.delete_reservation dbWithReservation 1
            5).2.reservations.find? (fun r => r.id == 1) =
          some { recActive with
                  status := ReservationStatusEnum.CANCELLED
                  cancelledAt := some 5 } ∧
        (ReservationService.delete_reservation
            (ReservationService.delete_reservation dbWithReservation 1 5).2
            1 7).2.reservations.find? (fun r => r.id == 1) =
          some { recActive with
                  status := ReservationStatusEnum.CANCELLED
                  cancelledAt := some 7 }) :=
  ⟨(cancel_spec dbEmpty 1 5 7).1 (by rfl),
   (cancel_spec dbWithReservation 1 5 7).2 recActive (by rfl)⟩

/-- C7: no promotion is ever selected and no unchanged-price creation ever
returned: with the flag set the run dies with `TypeError` at line 244 before
the promotion block, both when AVAILABLE matching promotions are in the
store (first conjunct) and when no promotion exists at all (second
conjunct); the stores are unchanged.  (Were the block reached, line 261
would itself raise `AttributeError`: `Promotion` there is the Pydantic
class, which has no `select`.) -/
theorem promotion_selection_dead_code :
    ReservationService.create_reservation_with_promotion dbTwoPromos
        reqPromo100 true =
      (Except.error (PyException.typeError
        "get_workspace missing 1 required positional argument: workspace_id"),
       dbTwoPromos) ∧
    ReservationService.create_reservation_with_promotion dbBase
        reqPromo100 true =
      (Except.error (PyException.typeError
        "get_workspace missing 1 required positional argument: workspace_id"),
       dbBase) :=
  ⟨rfl, rfl⟩

/-- C8: the failure modes the claim ranges over are unreachable: a request
that should fail the price validation (price −5 by an existing USER) fails
instead with `TypeError` at the unbound workspace-lookup call, before any
validation raise — with the store unchanged, though trivially so, since the
persistence call is unreachable on every path. -/
theorem validation_errors_unreachable :
    ReservationService.create_reservation dbBase reqBadPrice =
      (Except.error (PyException.typeError
        "get_workspace missing 1 required positional argument: workspace_id"),
       dbBase) := by
  rfl

/-- C9: `update_reservation` never succeeds on any store and id: the guard
comparing the workspace's capacity with itself fires whenever every earlier
check passes, so an error is raised before the save on every path and the
store is never changed. -/
theorem update_reservation_never_succeeds (db : DB) (reservation_id : Int) :
    (ReservationService.update_reservation db reservation_id).1.isOk = false ∧
      (ReservationService.update_reservation db reservation_id).2 = db := by
  unfold ReservationService.update_reservation
  split
  · exact ⟨rfl, rfl⟩
  · split
    · exact ⟨rfl, rfl⟩
    · split_ifs with h1 h2 h3 h4
      · exact ⟨rfl, rfl⟩
      · exact ⟨rfl, rfl⟩
      · exact ⟨rfl, rfl⟩
      · exact ⟨rfl, rfl⟩
      · split
        · exact ⟨rfl, rfl⟩
        · split_ifs with h5 h6
          · exact ⟨rfl, rfl⟩
          · exact ⟨rfl, rfl⟩
          · exact absurd le_rfl h6

/-- C10: the user lookup never returns Python `None` — a missing user makes
`get_user` raise 404 "User not found" — so `create_reservation`'s
missing-user branch (400 "Only need valid user ") is unreachable, and a
request naming an unknown user surfaces the NotFound error at line 114,
before the broken workspace call, store unchanged. -/
theorem missing_user_raises_not_found :
    (∀ db user_id, UserService.get_user db user_id ≠ Except.ok none) ∧
    (∀ db reservation, db.persons.find?
        (fun p => p.id == reservation.reservedBy) = none →
      ReservationService.create_reservation db reservation =
        (Except.error (PyException.httpException ⟨404, "User not found"⟩), db)) := by
  constructor
  · intro db user_id h
    unfold UserService.get_user at h
    split at h
    · simp at h
    · simp at h
  · intro db reservation h
    unfold ReservationService.create_reservation UserService.get_user
    rw [h]

/-- C10 witness: on the empty store, the lookup of user 1 is not `None`, and
creating `reqEqualTimes` surfaces 404 "User not found". -/
theorem missing_user_raises_not_found_witness :
    UserService.get_user dbEmpty 1 ≠ Except.ok none ∧
    ReservationService.create_reservation dbEmpty reqEqualTimes =
      (Except.error (PyException.httpException ⟨404, "User not found"⟩), dbEmpty) :=
  ⟨missing_user_raises_not_found.1 dbEmpty 1,
   missing_user_raises_not_found.2 dbEmpty reqEqualTimes (by rfl)⟩
